import Mathlib

/-!
Shallow embedding of the character-card extractor (src/index.ts).

JavaScript runtime values produced by the JSON/JSON5 parsers and by the
EXIF reader are modelled by the inductive type `Json` below, with `undf`
standing for the JavaScript value `undefined` (the result of a missing
property access).  External library collaborators — `JSON.parse`, the
`json5` permissive parser, `exifreader`'s `load`, the PNG chunk
extractor/encoder, the PNG text-chunk decoder and base64 conversion — are
parameters collected in the `Libs` record, exactly as the specification
treats them (library primitives with simple contracts).  JavaScript
builtins used by the source (`Number`, `Uint8Array` element coercion,
`TextDecoder('utf-8', ignoreBOM true)`, string coercion) are modelled
explicitly.
-/

/-- JavaScript runtime values as produced by the parsers and the EXIF
reader.  `undf` is JavaScript `undefined`. -/
inductive Json where
  | undf : Json
  | null : Json
  | bool : Bool → Json
  | num : Int → Json
  | str : String → Json
  | arr : List Json → Json
  | obj : List (String × Json) → Json

/-- JavaScript truthiness of a value (`!!v`).  `undefined`, `null`,
`false`, `0` and the empty string are falsy; arrays and objects are
always truthy. -/
def jsTruthy : Json → Bool
  | .undf => false
  | .null => false
  | .bool b => b
  | .num n => decide (n ≠ 0)
  | .str s => decide (s ≠ "")
  | .arr _ => true
  | .obj _ => true

/-- JavaScript strict equality `v === s` against a string literal.
A non-string value is never strictly equal to a string. -/
def jsStrictEqStr (v : Json) (s : String) : Bool :=
  match v with
  | .str t => decide (t = s)
  | _ => false

/-- JavaScript strict equality `v === n` against a number literal. -/
def jsStrictEqNum (v : Json) (n : Int) : Bool :=
  match v with
  | .num m => decide (m = n)
  | _ => false

/-- JavaScript plain (non-optional-chaining) property access on `null`
or `undefined` throws a TypeError; on every other value it succeeds
(primitives are boxed). -/
def jsAccessThrows : Json → Bool
  | .null => true
  | .undf => true
  | _ => false

/-- JavaScript property access `v[k]` for a string key: object lookup
(last binding wins, as with duplicate keys in `JSON.parse`), `undefined`
on anything else. -/
def Json.get (v : Json) (k : String) : Json :=
  match v with
  | .obj fields =>
    match fields.reverse.find? (fun p => p.1 == k) with
    | some p => p.2
    | none => .undf
  | _ => .undf

/-- JavaScript `v.length`: array length for arrays, character count for
strings, `undefined` otherwise. -/
def jsLength : Json → Json
  | .arr l => .num l.length
  | .str s => .num s.length
  | _ => .undf

/-- JavaScript index access `v[i]`: array element, single-character
string for strings, `undefined` when out of range or not indexable. -/
def jsIndex : Json → Nat → Json
  | .arr l, i => l.getD i .undf
  | .str s, i => (s.toList.map (fun c => Json.str (String.mk [c]))).getD i .undf
  | _, _ => .undf

/-- Modelled JS builtin: string coercion of an array element during
`Array.prototype.toString` — `null` and `undefined` become the empty
string; nested arrays and objects are approximated (never reached by the
source, whose payload elements are strings). -/
def jsToStr0 : Json → String
  | .undf => ""
  | .null => ""
  | .bool true => "true"
  | .bool false => "false"
  | .num n => toString n
  | .str s => s
  | .arr _ => ""
  | .obj _ => "[object Object]"

/-- Modelled JS builtin: `String(v)` coercion, as applied by the parser
entry points to their argument.  Arrays are joined one level deep. -/
def jsToString : Json → String
  | .undf => "undefined"
  | .null => "null"
  | .bool true => "true"
  | .bool false => "false"
  | .num n => toString n
  | .str s => s
  | .arr l => String.intercalate "," (l.map jsToStr0)
  | .obj _ => "[object Object]"

/-- ASCII whitespace accepted by the JavaScript `Number` grammar (the
common subset; exotic Unicode spaces are not modelled). -/
def isJsSpace (c : Char) : Bool :=
  c = ' ' || c = '\t' || c = '\n' || c = '\r' || c = '\x0b' || c = '\x0c'

/-- Strip leading and trailing whitespace from a character list. -/
def jsTrimChars (cs : List Char) : List Char :=
  ((cs.dropWhile isJsSpace).reverse.dropWhile isJsSpace).reverse

/-- Read a non-empty all-digit character list as a decimal natural. -/
def decDigitsAux : List Char → Nat → Option Nat
  | [], acc => some acc
  | c :: cs, acc =>
    if c.isDigit then decDigitsAux cs (acc * 10 + (c.toNat - 48)) else none

/-- Decimal digits to a natural number; `none` on the empty list or any
non-digit character. -/
def decDigits? (cs : List Char) : Option Nat :=
  match cs with
  | [] => none
  | _ => decDigitsAux cs 0

/-- Modelled JS builtin: `Number(s)` restricted to the optional-sign
decimal-integer grammar.  Whitespace is trimmed and the empty string is
`0`, as in JavaScript; every other numeric form is treated as NaN
(`none`).  Only used on the comma-separated decimal byte lists of the
WebP fallback. -/
def jsNumber (s : String) : Option Int :=
  match jsTrimChars s.toList with
  | [] => some 0
  | '-' :: rest => (decDigits? rest).map (fun n => -(n : Int))
  | '+' :: rest => (decDigits? rest).map (fun n => (n : Int))
  | t => (decDigits? t).map (fun n => (n : Int))

/-- Modelled JS builtin: coercion of a number to a `Uint8Array` element
(ToUint8): NaN becomes `0`, integers are taken modulo 256. -/
def toUint8 (o : Option Int) : Nat :=
  match o with
  | none => 0
  | some n => (n % 256).toNat

/-- Split a character list at every occurrence of a separator; the
pieces between separators, in order (empty pieces preserved). -/
def splitOnChar (sep : Char) : List Char → List (List Char)
  | [] => [[]]
  | c :: rest =>
    if c = sep then [] :: splitOnChar sep rest
    else
      match splitOnChar sep rest with
      | [] => [[c]]
      | h :: t => (c :: h) :: t

/-- Modelled JS builtin: `s.split(sep)` for a one-character separator;
splitting the empty string yields one empty piece, as in JavaScript. -/
def jsSplit (s : String) (sep : Char) : List String :=
  (splitOnChar sep s.toList).map String.mk

/-- The Unicode replacement character emitted for invalid UTF-8. -/
def replChar : Char := Char.ofNat 0xFFFD

/-- A UTF-8 continuation byte. -/
def isCont (b : Nat) : Bool := decide (0x80 ≤ b) && decide (b ≤ 0xBF)

/-- WHATWG UTF-8 decoding with U+FFFD replacement, fuelled by the input
length (each step consumes at least one byte). -/
def utf8DecodeAux : Nat → List Nat → List Char
  | 0, _ => []
  | _ + 1, [] => []
  | fuel + 1, b :: rest =>
    if b ≤ 0x7F then Char.ofNat b :: utf8DecodeAux fuel rest
    else if b < 0xC2 then replChar :: utf8DecodeAux fuel rest
    else if b ≤ 0xDF then
      match rest with
      | [] => [replChar]
      | b1 :: rest1 =>
        if isCont b1 then
          Char.ofNat ((b - 0xC0) * 0x40 + (b1 - 0x80)) :: utf8DecodeAux fuel rest1
        else replChar :: utf8DecodeAux fuel rest
    else if b ≤ 0xEF then
      match rest with
      | [] => [replChar]
      | b1 :: rest1 =>
        let lo := if b = 0xE0 then 0xA0 else 0x80
        let hi := if b = 0xED then 0x9F else 0xBF
        if lo ≤ b1 ∧ b1 ≤ hi then
          match rest1 with
          | [] => [replChar]
          | b2 :: rest2 =>
            if isCont b2 then
              Char.ofNat ((b - 0xE0) * 0x1000 + (b1 - 0x80) * 0x40 + (b2 - 0x80)) ::
                utf8DecodeAux fuel rest2
            else replChar :: utf8DecodeAux fuel rest1
        else replChar :: utf8DecodeAux fuel rest
    else if b ≤ 0xF4 then
      match rest with
      | [] => [replChar]
      | b1 :: rest1 =>
        let lo := if b = 0xF0 then 0x90 else 0x80
        let hi := if b = 0xF4 then 0x8F else 0xBF
        if lo ≤ b1 ∧ b1 ≤ hi then
          match rest1 with
          | [] => [replChar]
          | b2 :: rest2 =>
            if isCont b2 then
              match rest2 with
              | [] => [replChar]
              | b3 :: rest3 =>
                if isCont b3 then
                  Char.ofNat ((b - 0xF0) * 0x40000 + (b1 - 0x80) * 0x1000 +
                      (b2 - 0x80) * 0x40 + (b3 - 0x80)) :: utf8DecodeAux fuel rest3
                else replChar :: utf8DecodeAux fuel rest2
            else replChar :: utf8DecodeAux fuel rest1
        else replChar :: utf8DecodeAux fuel rest
    else replChar :: utf8DecodeAux fuel rest

/-- Modelled JS builtin: `new TextDecoder('utf-8', ignoreBOM true)
.decode(bytes)` — WHATWG UTF-8 decoding with U+FFFD replacement; with
`ignoreBOM` set, a leading byte-order mark is decoded to U+FEFF rather
than stripped. -/
def utf8Decode (bs : List Nat) : String := String.mk (utf8DecodeAux bs.length bs)

/-- A PNG chunk as produced by `png-chunks-extract` (types.d.ts). -/
structure PngChunk where
  name : String
  data : List Nat
deriving DecidableEq, Repr

/-- The keyword/text pair produced by `png-chunk-text`'s decode. -/
structure TextChunk where
  keyword : String
  text : String
deriving DecidableEq, Repr

/-- The external library collaborators of src/index.ts, modelled as
function parameters: `JSON.parse` and `json5.parse` return `none` where
the JavaScript functions throw; the PNG chunk codec, text-chunk decoder,
base64 conversions and `exifreader`'s `load` are total (the spec assumes
them correct). -/
structure Libs where
  jsonParse : String → Option Json
  json5Parse : String → Option Json
  pngExtract : List Nat → List PngChunk
  decodeTextChunk : List Nat → TextChunk
  base64ToUtf8 : String → String
  pngEncode : List PngChunk → List Nat
  bytesToBase64 : List Nat → String
  exifLoad : List Nat → Json

/-- The distinguishable failure modes of `Character.fromFile`:
`noMetadataFound` is the explicit `throw new Error('No character data
found!')`; `parseError` is an exception escaping `JSON.parse` or
`json5.parse`; `typeError` is the exception from calling `.split` on a
non-string; `unreachable` is `assertUnreachable` in the default switch
branch. -/
inductive ExtractError where
  | noMetadataFound : ExtractError
  | parseError : ExtractError
  | typeError : ExtractError
  | unreachable : ExtractError
deriving DecidableEq, Repr

/-- The output entity: normalized metadata plus the fallback avatar
(default empty, as in the constructor of class Character). -/
structure Character where
  metadata : Json
  fallbackAvatar : String

/-- Getter `avatar`: the metadata avatar field when truthy and not
strictly equal to the string sentinel "none", else the fallback. -/
def Character.avatar (c : Character) : Json :=
  if jsTruthy (c.metadata.get "avatar") && !(jsStrictEqStr (c.metadata.get "avatar") "none") then
    c.metadata.get "avatar"
  else
    Json.str c.fallbackAvatar

/-- Getter `description`: `system_prompt || description || ''`. -/
def Character.description (c : Character) : Json :=
  if jsTruthy (c.metadata.get "system_prompt") then c.metadata.get "system_prompt"
  else if jsTruthy (c.metadata.get "description") then c.metadata.get "description"
  else Json.str ""

/-- Getter `name`: `name || char_name || ''`. -/
def Character.name (c : Character) : Json :=
  if jsTruthy (c.metadata.get "name") then c.metadata.get "name"
  else if jsTruthy (c.metadata.get "char_name") then c.metadata.get "char_name"
  else Json.str ""

/-- The `image/png` branch of `Character.fromFile`, applied to the chunk
list `pngExtract` produced from the raw buffer.  The spec_version check
is a plain property access on the parse result, so a card that is the
JSON value null makes it throw a TypeError. -/
def fromFilePng (L : Libs) (chunks : List PngChunk) : Except ExtractError Character :=
  match ((chunks.filter (fun c => c.name == "tEXt")).map
      (fun d => L.decodeTextChunk d.data)).find? (fun d => d.keyword == "chara") with
  | none => .error .noMetadataFound
  | some extChunk =>
    match L.jsonParse (L.base64ToUtf8 extChunk.text) with
    | none => .error .parseError
    | some card =>
      let pngChunks := chunks.filter (fun c => c.name != "tEXt")
      let base64Avatar := "data:image/png;base64," ++ L.bytesToBase64 (L.pngEncode pngChunks)
      if jsAccessThrows card then .error .typeError
      else if jsStrictEqStr (card.get "spec_version") "2.0" then
        .ok ⟨card.get "data", base64Avatar⟩
      else
        .ok ⟨card, base64Avatar⟩

/-- The `image/webp` branch of `Character.fromFile`. -/
def fromFileWebp (L : Libs) (rawBuffer : List Nat) : Except ExtractError Character :=
  let uc := (L.exifLoad rawBuffer).get "UserComment"
  let base64Avatar := "data:image/webp;base64," ++ L.bytesToBase64 rawBuffer
  if jsTruthy (uc.get "description") then
    if !(jsStrictEqStr (uc.get "description") "Undefined") then
      match L.json5Parse (jsToString (uc.get "description")) with
      | some card => .ok ⟨card, base64Avatar⟩
      | none => .error .parseError
    else if jsTruthy (uc.get "value") && jsStrictEqNum (jsLength (uc.get "value")) 1 then
      if jsTruthy (jsIndex (uc.get "value") 0) then
        match L.json5Parse (jsToString (jsIndex (uc.get "value") 0)) with
        | some card => .ok ⟨card, base64Avatar⟩
        | none =>
          match jsIndex (uc.get "value") 0 with
          | Json.str s =>
            match L.json5Parse (utf8Decode ((jsSplit s ',').map (fun t => toUint8 (jsNumber t)))) with
            | some card => .ok ⟨card, base64Avatar⟩
            | none => .error .parseError
          | _ => .error .typeError
      else .error .noMetadataFound
    else .error .noMetadataFound
  else .error .noMetadataFound

/-- A File as consumed by `Character.fromFile`: the declared media type,
the text content (`file.text()`) and the byte content
(`file.arrayBuffer()`). -/
structure CFile where
  type : String
  text : String
  buffer : List Nat

/-- `Character.fromFile`: dispatch on the declared media type; the
default switch branch is `assertUnreachable`. -/
def fromFile (L : Libs) (file : CFile) : Except ExtractError Character :=
  if file.type = "application/json" then
    match L.jsonParse file.text with
    | some j => .ok ⟨j, ""⟩
    | none => .error .parseError
  else if file.type = "image/png" then
    fromFilePng L (L.pngExtract file.buffer)
  else if file.type = "image/webp" then
    fromFileWebp L file.buffer
  else .error .unreachable

/-!
Concrete collaborator instances used by witnesses and counterexamples.
-/

/-- A baseline instantiation of the external collaborators: parsers that
always fail, codecs returning empty output, an EXIF reader finding no
tags. -/
def trivLibs : Libs where
  jsonParse := fun _ => none
  json5Parse := fun _ => none
  pngExtract := fun _ => []
  decodeTextChunk := fun _ => ⟨"", ""⟩
  base64ToUtf8 := fun s => s
  pngEncode := fun _ => []
  bytesToBase64 := fun _ => ""
  exifLoad := fun _ => Json.undf

/-!
Helper lemmas.
-/

/-- Strict string equality agrees with propositional equality against a
string constructor. -/
theorem jsStrictEqStr_iff (v : Json) (s : String) :
    jsStrictEqStr v s = true ↔ v = Json.str s := by
  cases v <;> simp [jsStrictEqStr]

/-- A non-empty string is truthy. -/
theorem jsTruthy_str_of_ne {s : String} (h : s ≠ "") :
    jsTruthy (Json.str s) = true := by
  simp [jsTruthy, h]

/-!
Claim C5 — the three Character accessors and their fixed precedence.
-/

/-- C5: for every metadata record and fallback avatar, the avatar
accessor returns the metadata avatar field when it is non-empty and not
the sentinel "none", otherwise the fallback (hence the empty string when
the fallback is empty); the description accessor returns system_prompt
when non-empty, else description, else the empty string; the name
accessor returns name when non-empty, else char_name, else the empty
string; none of the accessors can fail. -/
theorem claim5_theorem (f av sp d a b : String) :
    ((Character.mk (Json.obj [("avatar", Json.str av)]) f).avatar
        = if av ≠ "" ∧ av ≠ "none" then Json.str av else Json.str f)
    ∧ ((Character.mk (Json.obj []) f).avatar = Json.str f)
    ∧ ((Character.mk (Json.obj [("system_prompt", Json.str sp), ("description", Json.str d)]) f).description
        = if sp ≠ "" then Json.str sp else if d ≠ "" then Json.str d else Json.str "")
    ∧ ((Character.mk (Json.obj [("name", Json.str a), ("char_name", Json.str b)]) f).name
        = if a ≠ "" then Json.str a else if b ≠ "" then Json.str b else Json.str "") := by
  refine ⟨?_, ?_, ?_, ?_⟩
  · have h1 : (Json.obj [("avatar", Json.str av)]).get "avatar" = Json.str av := rfl
    simp only [Character.avatar, h1, jsTruthy, jsStrictEqStr]
    by_cases hav : av = "" <;> by_cases hn : av = "none" <;> simp [hav, hn]
  · rfl
  · have h1 : (Json.obj [("system_prompt", Json.str sp), ("description", Json.str d)]).get
        "system_prompt" = Json.str sp := rfl
    have h2 : (Json.obj [("system_prompt", Json.str sp), ("description", Json.str d)]).get
        "description" = Json.str d := rfl
    simp only [Character.description, h1, h2, jsTruthy]
    by_cases hsp : sp = "" <;> by_cases hd : d = "" <;> simp [hsp, hd]
  · have h1 : (Json.obj [("name", Json.str a), ("char_name", Json.str b)]).get
        "name" = Json.str a := rfl
    have h2 : (Json.obj [("name", Json.str a), ("char_name", Json.str b)]).get
        "char_name" = Json.str b := rfl
    simp only [Character.name, h1, h2, jsTruthy]
    by_cases ha : a = "" <;> by_cases hb : b = "" <;> simp [ha, hb]

/-!
Claim C4 — legacy field-name fallback in the accessors.  The code has
accessors only for the name concept (name, then char_name) and the
description concept (system_prompt, then description — char_persona is
never consulted); there is no opening-message accessor at all.
-/

/-- C4 counterexample: a metadata record whose only persona field is the
legacy char_persona.  The claim says the persona accessor falls back to
char_persona and so returns it; the code's description accessor returns
the empty string instead. -/
theorem claim4_counterexample :
    (Character.mk (Json.obj [("char_persona", Json.str "persona text")]) "").description
        = Json.str ""
    ∧ Json.str "" ≠ Json.str "persona text" := by
  refine ⟨rfl, ?_⟩
  intro h
  injection h with h2
  exact absurd h2 (by decide)

/-- C4 amended: the name accessor prefers name and falls back to
char_name; the description accessor prefers system_prompt and falls back
to description only — a record carrying just char_persona yields the
empty string, whatever char_persona holds; both accessors return the
empty string when all their alternatives are absent. -/
theorem claim4_theorem (f a b sp d p : String) :
    ((Character.mk (Json.obj [("name", Json.str a), ("char_name", Json.str b)]) f).name
        = if a ≠ "" then Json.str a else if b ≠ "" then Json.str b else Json.str "")
    ∧ ((Character.mk (Json.obj [("system_prompt", Json.str sp), ("description", Json.str d),
          ("char_persona", Json.str p)]) f).description
        = if sp ≠ "" then Json.str sp else if d ≠ "" then Json.str d else Json.str "")
    ∧ ((Character.mk (Json.obj [("char_persona", Json.str p)]) f).description = Json.str "")
    ∧ ((Character.mk (Json.obj []) f).name = Json.str "")
    ∧ ((Character.mk (Json.obj []) f).description = Json.str "") := by
  refine ⟨?_, ?_, rfl, rfl, rfl⟩
  · have h1 : (Json.obj [("name", Json.str a), ("char_name", Json.str b)]).get
        "name" = Json.str a := rfl
    have h2 : (Json.obj [("name", Json.str a), ("char_name", Json.str b)]).get
        "char_name" = Json.str b := rfl
    simp only [Character.name, h1, h2, jsTruthy]
    by_cases ha : a = "" <;> by_cases hb : b = "" <;> simp [ha, hb]
  · have h1 : (Json.obj [("system_prompt", Json.str sp), ("description", Json.str d),
        ("char_persona", Json.str p)]).get "system_prompt" = Json.str sp := rfl
    have h2 : (Json.obj [("system_prompt", Json.str sp), ("description", Json.str d),
        ("char_persona", Json.str p)]).get "description" = Json.str d := rfl
    simp only [Character.description, h1, h2, jsTruthy]
    by_cases hsp : sp = "" <;> by_cases hd : d = "" <;> simp [hsp, hd]

/-!
Claim C7 — PNG extraction with no chara-keyword text chunk.
-/

/-- C7: for every PNG chunk list with no tEXt chunk decoding to the
keyword chara, extraction fails with NoMetadataFound. -/
theorem claim7_theorem (L : Libs) (chunks : List PngChunk)
    (h : ∀ c ∈ chunks, c.name = "tEXt" → (L.decodeTextChunk c.data).keyword ≠ "chara") :
    fromFilePng L chunks = .error .noMetadataFound := by
  have hf : ((chunks.filter (fun c => c.name == "tEXt")).map
      (fun d => L.decodeTextChunk d.data)).find? (fun d => d.keyword == "chara") = none := by
    rw [List.find?_eq_none]
    intro x hx
    rcases List.mem_map.mp hx with ⟨c, hc, rfl⟩
    rcases List.mem_filter.mp hc with ⟨hcm, hcn⟩
    simp only [beq_iff_eq] at hcn ⊢
    exact h c hcm hcn
  unfold fromFilePng
  rw [hf]

/-- C7 witness: a single IDAT-style chunk list has no chara text chunk,
and extraction fails with NoMetadataFound on it. -/
theorem claim7_witness :
    fromFilePng trivLibs [⟨"IHDR", [0]⟩] = Except.error ExtractError.noMetadataFound :=
  claim7_theorem trivLibs [⟨"IHDR", [0]⟩] (by decide)

/-!
Claim C6 — PNG spec_version 2.0 envelope unwrapping.  The spec_version
check at index.ts:117 is a plain property access on the parse result, so
the valid JSON payload "null" (base64 "bnVsbA==") parses to null and the
access throws a TypeError instead of yielding null as the metadata.
-/

/-- Collaborators for the C6 counterexample: chunk data [2] decodes to
the chara text chunk whose text is the base64 of the JSON text null,
which the strict parser accepts as the null value. -/
def libs6c : Libs := { trivLibs with
  decodeTextChunk := fun d => if d = [2] then ⟨"chara", "bnVsbA=="⟩ else ⟨"", ""⟩,
  base64ToUtf8 := fun s => if s = "bnVsbA==" then "null" else "",
  jsonParse := fun s => if s = "null" then some Json.null else none }

/-- C6 counterexample: a chara chunk holding base64-encoded UTF-8 JSON
whose parse result is null.  The claim's otherwise-branch says the
metadata is the parsed value itself; the code instead throws a TypeError
at the spec_version property access, so extraction fails. -/
theorem claim6_counterexample :
    fromFilePng libs6c [⟨"IHDR", [1]⟩, ⟨"tEXt", [2]⟩] = Except.error ExtractError.typeError
    ∧ libs6c.jsonParse (libs6c.base64ToUtf8 "bnVsbA==") = some Json.null := ⟨rfl, rfl⟩

/-- C6 amended: for every PNG whose chara text chunk decodes (via base64
and JSON) to a card on which property access succeeds (any non-null
parse result — JSON.parse cannot return undefined), the metadata is the
card's nested data field exactly when spec_version is the string "2.0",
and the card itself otherwise; when the parse result is null the
spec_version access throws a TypeError and extraction fails. -/
theorem claim6_theorem (L : Libs) (chunks : List PngChunk) (tc : TextChunk) (card : Json)
    (hfind : ((chunks.filter (fun c => c.name == "tEXt")).map
        (fun d => L.decodeTextChunk d.data)).find? (fun d => d.keyword == "chara") = some tc)
    (hparse : L.jsonParse (L.base64ToUtf8 tc.text) = some card)
    (hcard : jsAccessThrows card = false) :
    (card.get "spec_version" = Json.str "2.0" →
      fromFilePng L chunks = .ok ⟨card.get "data", "data:image/png;base64," ++
        L.bytesToBase64 (L.pngEncode (chunks.filter (fun c => c.name != "tEXt")))⟩)
    ∧ (card.get "spec_version" ≠ Json.str "2.0" →
      fromFilePng L chunks = .ok ⟨card, "data:image/png;base64," ++
        L.bytesToBase64 (L.pngEncode (chunks.filter (fun c => c.name != "tEXt")))⟩) := by
  constructor
  · intro hv
    have hb : jsStrictEqStr (card.get "spec_version") "2.0" = true :=
      (jsStrictEqStr_iff _ _).mpr hv
    simp [fromFilePng, hfind, hparse, hcard, hb]
  · intro hv
    have hb : jsStrictEqStr (card.get "spec_version") "2.0" = false := by
      rcases Bool.eq_false_or_eq_true (jsStrictEqStr (card.get "spec_version") "2.0") with h | h
      · exact absurd ((jsStrictEqStr_iff _ _).mp h) hv
      · exact h
    simp [fromFilePng, hfind, hparse, hcard, hb]

/-- Collaborators for the C6 witness: chunk data [2] decodes to the chara
text chunk whose base64 payload parses to a spec_version 2.0 envelope. -/
def libs6 : Libs := { trivLibs with
  decodeTextChunk := fun d => if d = [2] then ⟨"chara", "e30="⟩ else ⟨"", ""⟩,
  jsonParse := fun s => if s = "e30=" then
    some (Json.obj [("spec_version", Json.str "2.0"),
      ("data", Json.obj [("name", Json.str "Alice")])]) else none }

/-- C6 witness: on a concrete two-chunk PNG carrying a spec_version 2.0
envelope, extraction returns the nested data object. -/
theorem claim6_witness :
    fromFilePng libs6 [⟨"IHDR", [1]⟩, ⟨"tEXt", [2]⟩] =
      Except.ok ⟨Json.obj [("name", Json.str "Alice")], "data:image/png;base64,"⟩ :=
  (claim6_theorem libs6 [⟨"IHDR", [1]⟩, ⟨"tEXt", [2]⟩] ⟨"chara", "e30="⟩
      (Json.obj [("spec_version", Json.str "2.0"),
        ("data", Json.obj [("name", Json.str "Alice")])]) rfl rfl rfl).1 rfl

/-!
Claim C8 — the PNG fallback avatar and which chunks survive.  The code
filters out EVERY tEXt chunk, not only the chara one, so a text chunk
with another keyword is not preserved.
-/

/-- Collaborators for C8: chunk data [2] decodes to the chara text
chunk, chunk data [3] to a text chunk with a different keyword; the
encoder and base64 step are injective enough to tell chunk lists
apart. -/
def libs8 : Libs := { trivLibs with
  decodeTextChunk := fun d => if d = [2] then ⟨"chara", "e30="⟩ else ⟨"ccv3", "zzz"⟩,
  jsonParse := fun s => if s = "e30=" then some (Json.obj []) else none,
  pngEncode := fun cs => cs.map (fun c => c.data.headD 0),
  bytesToBase64 := fun bs => String.intercalate "," (bs.map toString) }

/-- The C8 chunk list: header, chara text chunk, a second text chunk
with another keyword, end marker. -/
def chunks8 : List PngChunk := [⟨"IHDR", [1]⟩, ⟨"tEXt", [2]⟩, ⟨"tEXt", [3]⟩, ⟨"IEND", [4]⟩]

/-- C8 counterexample: extraction succeeds on chunks8 with fallback
avatar re-encoding only IHDR and IEND; re-encoding the chunk sequence
with exactly the chara chunk removed (keeping the other text chunk)
gives a different avatar, so the other text chunk was not preserved. -/
theorem claim8_counterexample :
    fromFilePng libs8 chunks8 = Except.ok ⟨Json.obj [], "data:image/png;base64,1,4"⟩
    ∧ "data:image/png;base64," ++ libs8.bytesToBase64 (libs8.pngEncode
        [⟨"IHDR", [1]⟩, ⟨"tEXt", [3]⟩, ⟨"IEND", [4]⟩]) = "data:image/png;base64,1,3,4"
    ∧ ("data:image/png;base64,1,4" : String) ≠ "data:image/png;base64,1,3,4" :=
  ⟨rfl, rfl, by decide⟩

/-- C8 amended: for every PNG from which extraction succeeds, the
fallback avatar is the re-encoding of the chunk sequence with every
tEXt chunk removed (so text chunks with other keywords are dropped too),
the remaining chunks kept in order. -/
theorem claim8_theorem (L : Libs) (chunks : List PngChunk) (c : Character)
    (h : fromFilePng L chunks = .ok c) :
    c.fallbackAvatar = "data:image/png;base64," ++
      L.bytesToBase64 (L.pngEncode (chunks.filter (fun ch => ch.name != "tEXt"))) := by
  unfold fromFilePng at h
  rcases hfind : ((chunks.filter (fun c => c.name == "tEXt")).map
      (fun d => L.decodeTextChunk d.data)).find? (fun d => d.keyword == "chara") with _ | tc
  · rw [hfind] at h
    exact absurd h (by simp)
  · rw [hfind] at h
    dsimp only at h
    rcases hp : L.jsonParse (L.base64ToUtf8 tc.text) with _ | card
    · rw [hp] at h
      exact absurd h (by simp)
    · rw [hp] at h
      dsimp only at h
      split at h
      · exact absurd h (by simp)
      · split at h <;> cases h <;> rfl

/-- C8 witness: the amended statement applied to the concrete successful
extraction from chunks8 — the avatar equals the re-encoding of the
non-tEXt chunks. -/
theorem claim8_witness :
    (Character.mk (Json.obj []) "data:image/png;base64,1,4").fallbackAvatar
      = "data:image/png;base64," ++ libs8.bytesToBase64 (libs8.pngEncode
          (chunks8.filter (fun ch => ch.name != "tEXt"))) :=
  claim8_theorem libs8 chunks8 ⟨Json.obj [], "data:image/png;base64,1,4"⟩ rfl

/-!
Claim C9 — exhaustive media-type dispatch.
-/

/-- C9: for every declared media type outside the three supported
values, and for every file content and every collaborator behaviour,
extraction fails with the unreachable-branch error — the result does not
depend on the file content, so no content is consulted and nothing
passes through silently. -/
theorem claim9_theorem (L : Libs) (file : CFile)
    (h : file.type ∉ (["application/json", "image/png", "image/webp"] : List String)) :
    fromFile L file = .error .unreachable := by
  have h1 : file.type ≠ "application/json" := by intro e; exact h (by simp [e])
  have h2 : file.type ≠ "image/png" := by intro e; exact h (by simp [e])
  have h3 : file.type ≠ "image/webp" := by intro e; exact h (by simp [e])
  simp [fromFile, h1, h2, h3]

/-- C9 witness: a gif-typed file is rejected with the unreachable-branch
error. -/
theorem claim9_witness :
    fromFile trivLibs ⟨"image/gif", "", []⟩ = Except.error ExtractError.unreachable :=
  claim9_theorem trivLibs ⟨"image/gif", "", []⟩ (by decide)

/-!
Claim C1 — the WebP value-array path.  The code only reaches the value
array when the description sub-field is present and truthy: when the
description is ABSENT the whole UserComment block is skipped and
extraction fails, contrary to the claim.
-/

/-- Collaborators for the C1 counterexample: the EXIF data carries a
UserComment with NO description sub-field and a one-element value array
whose element parses under the permissive parser. -/
def libs1c : Libs := { trivLibs with
  json5Parse := fun t => if t = "{}" then some (Json.obj []) else none,
  exifLoad := fun _ => Json.obj [("UserComment",
    Json.obj [("value", Json.arr [Json.str "{}"])])] }

/-- C1 counterexample: with the description sub-field absent and a
parsable one-element value array, extraction does not succeed — it fails
with NoMetadataFound, although the element does parse. -/
theorem claim1_counterexample :
    fromFileWebp libs1c [] = Except.error ExtractError.noMetadataFound
    ∧ libs1c.json5Parse "{}" = some (Json.obj []) := ⟨rfl, rfl⟩

/-- C1 amended: when the UserComment description sub-field is present
and equals the sentinel "Undefined" (truthiness of the sentinel makes
the block reachable), and the value array has exactly one non-empty
element that parses, extraction succeeds via the value-array path with
the parsed object as metadata; the description path is never used for
the sentinel. -/
theorem claim1_theorem (L : Libs) (buf : List Nat) (s : String) (card : Json)
    (hd : ((L.exifLoad buf).get "UserComment").get "description" = Json.str "Undefined")
    (hv : ((L.exifLoad buf).get "UserComment").get "value" = Json.arr [Json.str s])
    (hs : s ≠ "")
    (hp : L.json5Parse s = some card) :
    fromFileWebp L buf =
      .ok ⟨card, "data:image/webp;base64," ++ L.bytesToBase64 buf⟩ := by
  have t1 : jsTruthy (Json.str "Undefined") = true := rfl
  have t2 : jsStrictEqStr (Json.str "Undefined") "Undefined" = true := rfl
  have t3 : jsTruthy (Json.arr [Json.str s]) = true := rfl
  have t4 : jsStrictEqNum (jsLength (Json.arr [Json.str s])) 1 = true := rfl
  have t5 : jsIndex (Json.arr [Json.str s]) 0 = Json.str s := rfl
  have t6 : jsToString (Json.str s) = s := rfl
  have t7 : jsTruthy (Json.str s) = true := jsTruthy_str_of_ne hs
  simp only [fromFileWebp, hd, hv, t1, t2, t3, t4, t5, t6, t7, hp]
  simp

/-- Collaborators for the C1 witness: description is the sentinel and
the single value element parses directly. -/
def libs1w : Libs := { trivLibs with
  json5Parse := fun t => if t = "{a:1}" then some (Json.obj [("a", Json.num 1)]) else none,
  exifLoad := fun _ => Json.obj [("UserComment", Json.obj
    [("description", Json.str "Undefined"), ("value", Json.arr [Json.str "{a:1}"])])] }

/-- C1 witness: the amended statement on a concrete sentinel-description
WebP input. -/
theorem claim1_witness :
    fromFileWebp libs1w [] =
      Except.ok ⟨Json.obj [("a", Json.num 1)], "data:image/webp;base64,"⟩ :=
  claim1_theorem libs1w [] "{a:1}" (Json.obj [("a", Json.num 1)]) rfl rfl (by decide) rfl

/-!
Claim C3 — the byte-array fallback of the WebP value path.
-/

/-- C3: on the value-array path (sentinel description, one non-empty
element), when the direct permissive parse of the element fails but the
element, read as a comma-separated list of decimal byte values and
decoded as UTF-8 (a leading byte-order mark surviving into the text),
parses, extraction succeeds with the object parsed from the decoded
text; and the byte-array reinterpretation is reached only after the
direct parse fails — when the direct parse succeeds its result is used
instead. -/
theorem claim3_theorem (L : Libs) (buf : List Nat) (s : String) (card card2 : Json)
    (hd : ((L.exifLoad buf).get "UserComment").get "description" = Json.str "Undefined")
    (hv : ((L.exifLoad buf).get "UserComment").get "value" = Json.arr [Json.str s])
    (hs : s ≠ "") :
    (L.json5Parse s = none →
      L.json5Parse (utf8Decode ((jsSplit s ',').map (fun t => toUint8 (jsNumber t)))) = some card →
      fromFileWebp L buf = .ok ⟨card, "data:image/webp;base64," ++ L.bytesToBase64 buf⟩)
    ∧ (L.json5Parse s = some card2 →
      fromFileWebp L buf = .ok ⟨card2, "data:image/webp;base64," ++ L.bytesToBase64 buf⟩) := by
  have t1 : jsTruthy (Json.str "Undefined") = true := rfl
  have t2 : jsStrictEqStr (Json.str "Undefined") "Undefined" = true := rfl
  have t3 : jsTruthy (Json.arr [Json.str s]) = true := rfl
  have t4 : jsStrictEqNum (jsLength (Json.arr [Json.str s])) 1 = true := rfl
  have t5 : jsIndex (Json.arr [Json.str s]) 0 = Json.str s := rfl
  have t6 : jsToString (Json.str s) = s := rfl
  have t7 : jsTruthy (Json.str s) = true := jsTruthy_str_of_ne hs
  constructor
  · intro hp1 hp2
    simp only [fromFileWebp, hd, hv, t1, t2, t3, t4, t5, t6, t7, hp1, hp2]
    simp
  · intro hp
    simp only [fromFileWebp, hd, hv, t1, t2, t3, t4, t5, t6, t7, hp]
    simp

/-- Collaborators for the C3 witness: the permissive parser accepts only
the UTF-8 decoding of the byte list 239,187,191,123,125 — a byte-order
mark followed by an empty object — so the direct parse of the textual
byte list fails and the byte-array fallback succeeds. -/
def libs3w : Libs := { trivLibs with
  json5Parse := fun t => if t = utf8Decode [239, 187, 191, 123, 125] then
    some (Json.obj []) else none,
  exifLoad := fun _ => Json.obj [("UserComment", Json.obj
    [("description", Json.str "Undefined"),
     ("value", Json.arr [Json.str "239,187,191,123,125"])])] }

/-- C3 witness: a concrete byte-list element (including a UTF-8
byte-order mark) that fails the direct parse and succeeds after
decimal-byte decoding. -/
theorem claim3_witness :
    fromFileWebp libs3w [] = Except.ok ⟨Json.obj [], "data:image/webp;base64,"⟩ :=
  (claim3_theorem libs3w [] "239,187,191,123,125" (Json.obj []) (Json.obj [])
      rfl rfl (by decide)).1 rfl rfl

/-!
Claim C2 — when the WebP fallback chain fails with NoMetadataFound.  The
claim also covers the all-parses-fail case, but there the code lets the
parse error escape instead of reporting NoMetadataFound.
-/

/-- Collaborators for the C2 counterexample: the parser rejects
everything, the element "x" is not a byte list decoding to parsable
text, so both the direct and the byte-array parse fail. -/
def libs2c : Libs := { trivLibs with
  exifLoad := fun _ => Json.obj [("UserComment", Json.obj
    [("description", Json.str "Undefined"), ("value", Json.arr [Json.str "x"])])] }

/-- C2 counterexample: when every parse attempt fails (direct and
byte-array-decoded), extraction fails with the propagated parse error,
not with NoMetadataFound. -/
theorem claim2_counterexample :
    fromFileWebp libs2c [] = Except.error ExtractError.parseError
    ∧ ExtractError.parseError ≠ ExtractError.noMetadataFound := ⟨rfl, by decide⟩

/-- C2 amended: extraction fails with NoMetadataFound, and no other
error kind, exactly in the structural cases — no usable UserComment
(falsy description sub-field), or sentinel description with a value that
is missing, not of length one, or whose single element is falsy; when
all parse attempts fail the parse error propagates instead. -/
theorem claim2_theorem (L : Libs) (buf : List Nat)
    (h : jsTruthy (((L.exifLoad buf).get "UserComment").get "description") = false
      ∨ (((L.exifLoad buf).get "UserComment").get "description" = Json.str "Undefined"
        ∧ ((jsTruthy (((L.exifLoad buf).get "UserComment").get "value") &&
              jsStrictEqNum (jsLength (((L.exifLoad buf).get "UserComment").get "value")) 1) = false
          ∨ jsTruthy (jsIndex (((L.exifLoad buf).get "UserComment").get "value") 0) = false))) :
    fromFileWebp L buf = .error .noMetadataFound := by
  have t1 : jsTruthy (Json.str "Undefined") = true := rfl
  have t2 : jsStrictEqStr (Json.str "Undefined") "Undefined" = true := rfl
  rcases h with h | ⟨hd, hrest⟩
  · simp [fromFileWebp, h]
  · rcases hrest with hval | hdata
    · simp [fromFileWebp, hd, t1, t2, hval]
    · rcases Bool.eq_false_or_eq_true (jsTruthy (((L.exifLoad buf).get "UserComment").get "value") &&
          jsStrictEqNum (jsLength (((L.exifLoad buf).get "UserComment").get "value")) 1) with hval | hval
      · simp [fromFileWebp, hd, t1, t2, hval, hdata]
      · simp [fromFileWebp, hd, t1, t2, hval]

/-- C2 witness: an EXIF record with no UserComment tag at all makes the
description sub-field falsy, and extraction fails with
NoMetadataFound. -/
theorem claim2_witness :
    fromFileWebp trivLibs [] = Except.error ExtractError.noMetadataFound :=
  claim2_theorem trivLibs [] (Or.inl rfl)

/-!
Claim C10 — sentinel description with an empty single value element.
-/

/-- The C10 EXIF record: sentinel description and a one-element value
array holding the empty string. -/
def exif10 : Json := Json.obj [("UserComment", Json.obj
  [("description", Json.str "Undefined"), ("value", Json.arr [Json.str ""])])]

/-- C10: for every collaborator behaviour — in particular for every
permissive parser, so no parse of the element can influence the result —
a WebP input whose EXIF data is exif10 (sentinel description, value
array of length one holding the empty string) fails with
NoMetadataFound. -/
theorem claim10_theorem (L : Libs) (buf : List Nat)
    (h : L.exifLoad buf = exif10) :
    fromFileWebp L buf = .error .noMetadataFound := by
  have g1 : (exif10.get "UserComment").get "description" = Json.str "Undefined" := rfl
  have g2 : (exif10.get "UserComment").get "value" = Json.arr [Json.str ""] := rfl
  have g3 : jsTruthy (Json.str "Undefined") = true := rfl
  have g4 : jsStrictEqStr (Json.str "Undefined") "Undefined" = true := rfl
  have g5 : jsTruthy (Json.arr [Json.str ""]) = true := rfl
  have g6 : jsStrictEqNum (jsLength (Json.arr [Json.str ""])) 1 = true := rfl
  have g7 : jsIndex (Json.arr [Json.str ""]) 0 = Json.str "" := rfl
  have g8 : jsTruthy (Json.str "") = false := rfl
  simp only [fromFileWebp, h, g1, g2, g3, g4, g5, g6, g7, g8]
  simp

/-- Collaborators for the C10 witness: the EXIF reader yields exif10. -/
def libs10 : Libs := { trivLibs with exifLoad := fun _ => exif10 }

/-- C10 witness: the concrete empty-element input fails with
NoMetadataFound. -/
theorem claim10_witness :
    fromFileWebp libs10 [] = Except.error ExtractError.noMetadataFound :=
  claim10_theorem libs10 [] rfl
